import Mathlib

/-!
Shallow embedding of the pipeline orchestrator, project-state entity and
artifact store of the repository (backend/models/project.py,
backend/agents/orchestrator.py, backend/agents/planner.py,
backend/services/file_manager.py), together with theorems settling the
frozen claims about them.

Modelling conventions:
- `datetime` values are abstracted to `Nat` timestamps (ISO serialization of
  datetimes is lossless, so snapshot round-trips treat them as exact).
- Python dict payloads (`Dict[str, Any]`) carried opaquely by the code are
  modelled as association lists of strings (`LogData`); the code never
  inspects them, only copies them.
- Each external collaborator call made under `_run_with_timeout` is an
  oracle returning `StepResult`: either a value or a timeout.
-/

namespace ACP

/-! Kernel-computable counterparts of the Python string operations the code
uses (`startswith`, `endswith`, `lower`, `capitalize`, `split('.')`,
`replace`), defined over the character list so that concrete instances
evaluate by `rfl`/`decide`. -/

/-- Python `str.startswith`. -/
def sStartsWith (s pre : String) : Bool :=
  pre.data.isPrefixOf s.data

/-- Python `str.endswith`. -/
def sEndsWith (s post : String) : Bool :=
  post.data.isSuffixOf s.data

/-- Python `str.lower`. -/
def sToLower (s : String) : String :=
  ⟨s.data.map Char.toLower⟩

/-- Python `str.capitalize` (first character upper, the rest lower). -/
def sCapitalize (s : String) : String :=
  match s.data with
  | [] => ⟨[]⟩
  | c :: rest => ⟨c.toUpper :: rest.map Char.toLower⟩

def splitAux (c : Char) : List Char → List Char → List String
  | [], acc => [⟨acc.reverse⟩]
  | x :: xs, acc =>
      if x == c then ⟨acc.reverse⟩ :: splitAux c xs []
      else splitAux c xs (x :: acc)

/-- Python `str.split('.')`. -/
def sSplitDot (s : String) : List String :=
  splitAux '.' s.data []

def replaceFuel (old new : List Char) : Nat → List Char → List Char
  | 0, l => l
  | _ + 1, [] => []
  | fuel + 1, x :: xs =>
      if old.isPrefixOf (x :: xs) then
        new ++ replaceFuel old new fuel ((x :: xs).drop old.length)
      else x :: replaceFuel old new fuel xs

/-- Python `str.replace(old, new)` for non-empty `old` (every occurrence,
left to right, non-overlapping). -/
def sReplace (s old new : String) : String :=
  ⟨replaceFuel old.data new.data s.data.length s.data⟩

/-- Mirrors `ProjectStatus` (models/project.py lines 8-17). -/
inductive ProjectStatus where
  | pending
  | planning
  | coding
  | testing
  | analyzing
  | dojo
  | completed
  | failed
deriving DecidableEq, Repr

/-- The `.value` string of each enum member (models/project.py lines 10-17). -/
def statusToString : ProjectStatus → String
  | .pending => "pending"
  | .planning => "planning"
  | .coding => "coding"
  | .testing => "testing"
  | .analyzing => "analyzing"
  | .dojo => "dojo_mode"
  | .completed => "completed"
  | .failed => "failed"

/-- `ProjectStatus(s)` on a string: `none` models the `ValueError` raised by
the Python enum constructor on an unknown value. -/
def statusFromString (s : String) : Option ProjectStatus :=
  if s = "pending" then some .pending
  else if s = "planning" then some .planning
  else if s = "coding" then some .coding
  else if s = "testing" then some .testing
  else if s = "analyzing" then some .analyzing
  else if s = "dojo_mode" then some .dojo
  else if s = "completed" then some .completed
  else if s = "failed" then some .failed
  else none

/-- Opaque dict payload (`Dict[str, Any]`) as an association list. -/
abbrev LogData := List (String × String)

/-- One entry of `ProjectState.logs` (models/project.py lines 72-79). -/
structure LogEntry where
  ltype : String
  message : String
  dat : LogData
  timestamp : Nat
deriving DecidableEq, Repr

/-- `metadata` mapping: keys to optional string values (the orchestrator
stores `style_guide`/`spec_constraints`, both `Optional[str]`). -/
abbrev Metadata := List (String × Option String)

/-- `dict.get(k)` on a `Metadata` map: `none` when the key is missing or the
stored value is `None`. -/
def mget (m : Metadata) (k : String) : Option String :=
  ((m.find? (fun p => p.1 == k)).map Prod.snd).join

/-- Mirrors the attributes set in `ProjectState.__init__`
(models/project.py lines 22-34). -/
structure ProjectState where
  project_id : String
  project_name : String
  goal : String
  tech_stack : List String
  status : ProjectStatus
  created_at : Nat
  updated_at : Nat
  tasks : List LogData
  files : List String
  errors : List String
  logs : List LogEntry
  metadata : Metadata
deriving DecidableEq, Repr

/-- `ProjectState(project_id, project_name, goal, tech_stack)`: note
`tech_stack or ["python"]` replaces both `None` and an empty list
(models/project.py line 26). -/
def ProjectState.init (pid name goal : String) (tech : Option (List String))
    (now : Nat) : ProjectState where
  project_id := pid
  project_name := name
  goal := goal
  tech_stack :=
    match tech with
    | none => ["python"]
    | some l => if l.isEmpty then ["python"] else l
  status := .pending
  created_at := now
  updated_at := now
  tasks := []
  files := []
  errors := []
  logs := []
  metadata := []

/-- `update_status` (models/project.py lines 55-58): sets the status
unconditionally, with no transition check. -/
def ProjectState.update_status (s : ProjectState) (st : ProjectStatus)
    (now : Nat) : ProjectState :=
  { s with status := st, updated_at := now }

/-- `add_task` (models/project.py lines 60-62). -/
def ProjectState.add_task (s : ProjectState) (t : LogData) : ProjectState :=
  { s with tasks := s.tasks ++ [t] }

/-- `add_file` (models/project.py lines 64-66): a plain append, with no
membership check. -/
def ProjectState.add_file (s : ProjectState) (fp : String) : ProjectState :=
  { s with files := s.files ++ [fp] }

/-- `add_error` (models/project.py lines 68-70). -/
def ProjectState.add_error (s : ProjectState) (e : String) : ProjectState :=
  { s with errors := s.errors ++ [e] }

/-- `add_log` (models/project.py lines 72-79). -/
def ProjectState.add_log (s : ProjectState) (ltype msg : String)
    (dat : LogData) (now : Nat) : ProjectState :=
  { s with logs := s.logs ++ [⟨ltype, msg, dat, now⟩] }

/-- The serialized snapshot record. Required keys of `from_dict` are plain
fields; keys read through `data.get(..., default)` are `Option` fields so
that their absence is representable. `to_dict` (models/project.py lines
81-95) writes every key EXCEPT `tech_stack`, which it omits. -/
structure Snapshot where
  project_id : String
  project_name : String
  goal : String
  tech_stack : Option (List String)
  status : String
  created_at : Nat
  updated_at : Nat
  tasks : Option (List LogData)
  files : Option (List String)
  errors : Option (List String)
  logs : Option (List LogEntry)
  metadata : Option Metadata
deriving DecidableEq, Repr

/-- `to_dict` (models/project.py lines 81-95). The dict literal has no
`tech_stack` key, hence `tech_stack := none` here. -/
def ProjectState.to_dict (s : ProjectState) : Snapshot where
  project_id := s.project_id
  project_name := s.project_name
  goal := s.goal
  tech_stack := none
  status := statusToString s.status
  created_at := s.created_at
  updated_at := s.updated_at
  tasks := some s.tasks
  files := some s.files
  errors := some s.errors
  logs := some s.logs
  metadata := some s.metadata

/-- `from_dict` (models/project.py lines 36-53): rebuilds through the
constructor (so the `or ["python"]` default applies again), then overwrites
the remaining attributes; `none` models the `ValueError` from
`ProjectStatus(data["status"])` on an unknown status string. -/
def ProjectState.from_dict (d : Snapshot) : Option ProjectState :=
  let base := ProjectState.init d.project_id d.project_name d.goal
    (some (d.tech_stack.getD ["python"])) 0
  match statusFromString d.status with
  | none => none
  | some st =>
      some { base with
        status := st
        created_at := d.created_at
        updated_at := d.updated_at
        tasks := d.tasks.getD []
        files := d.files.getD []
        errors := d.errors.getD []
        logs := d.logs.getD []
        metadata := d.metadata.getD [] }

lemma statusFromString_statusToString (st : ProjectStatus) :
    statusFromString (statusToString st) = some st := by
  cases st <;> rfl

/-- Round trip of the snapshot: everything survives except `tech_stack`,
which `to_dict` omits and `from_dict` therefore defaults to `["python"]`. -/
lemma from_dict_to_dict (p : ProjectState) :
    ProjectState.from_dict p.to_dict = some { p with tech_stack := ["python"] } := by
  unfold ProjectState.from_dict ProjectState.to_dict
  simp [statusFromString_statusToString, ProjectState.init]

/-! ## Planner (agents/planner.py) -/

/-- A file entry of a plan (`{"path", "description", "language"}`). -/
structure FileSpec where
  path : String
  description : String
  language : String
deriving DecidableEq, Repr

/-- A plan as consumed by the orchestrator.  `err` mirrors the `"error"`
key the fallback plan carries (planner.py line 114). -/
structure Plan where
  project_name : String
  project_goal : String
  tasks : List String
  files : List FileSpec
  dependencies : List String
  test_files : List String
  estimated_time : String
  err : Option String
deriving DecidableEq, Repr

/-- The raw structured output of the generation provider, before
`create_plan` validates it.  `hasErrorKey` models `"error" in plan`;
optional fields model possibly missing keys. -/
structure PlanDict where
  hasErrorKey : Bool
  tasks : Option (List String)
  files : Option (List FileSpec)
  dependencies : Option (List String)
  test_files : Option (List String)
  estimated_time : Option String
deriving DecidableEq, Repr

/-- `_get_fallback_plan` (planner.py lines 88-115). -/
def fallback_plan (name goal : String) (e : Option String) : Plan where
  project_name := name
  project_goal := goal
  tasks := ["Create project structure", "Write main application file",
    "Add basic functionality", "Create README documentation"]
  files := [⟨"main.py", "Main application file", "python"⟩,
    ⟨"README.md", "Project documentation", "markdown"⟩]
  dependencies := []
  test_files := []
  estimated_time := "1 hour"
  err := e

/-- `create_plan` (planner.py lines 35-86): the argument is the outcome of
the provider call (`.error` models a raised exception).  The fallback plan
is substituted when the call raised, when the result carries an `"error"`
key, or when its file list is missing or empty; otherwise missing keys are
defaulted and project metadata added. -/
def create_plan (gen : Except String PlanDict) (name goal : String) : Plan :=
  match gen with
  | .error e => fallback_plan name goal (some e)
  | .ok d =>
      if d.hasErrorKey || (d.files.getD []).isEmpty then
        fallback_plan name goal none
      else
        { project_name := name
          project_goal := goal
          tasks := d.tasks.getD []
          files := d.files.getD []
          dependencies := d.dependencies.getD []
          test_files := d.test_files.getD []
          estimated_time := d.estimated_time.getD "1 hour"
          err := none }

/-! ## Orchestrator pipeline (agents/orchestrator.py)

The pipeline body (lines 85-265) as written in the source: each external
collaborator call wrapped in `_run_with_timeout` is an oracle returning
either a value or a timeout. -/

/-- Outcome of one external call made under `_run_with_timeout`. -/
inductive StepResult (α : Type) where
  | ok (a : α)
  | timeout
deriving DecidableEq, Repr

/-- Result dict of `tester.run_test_file` as the orchestrator reads it
(`test_result["success"]`, `test_result["error"]`). -/
structure TestResult where
  success : Bool
  error : String
deriving DecidableEq, Repr

/-- Result dict of `enforcer.enforce` as the orchestrator reads it. -/
structure EnforceResult where
  compliant : Bool
  feedback : String
  violations : String
deriving DecidableEq, Repr

/-- The external collaborators invoked by the pipeline body, as oracles. -/
structure Oracles where
  plan : StepResult Plan
  develop : FileSpec → StepResult String
  rework : FileSpec → String → StepResult String
  enforce : String → String → Option String → Option String → StepResult EnforceResult
  create_tests : String → String → String → StepResult String
  run_test : String → String → StepResult TestResult
  fix_code : String → String → String → String → StepResult String

/-- Instrumentation events: status writes, progress emissions (each of which
also schedules a snapshot save), disk writes and external calls. -/
inductive Ev where
  | status (oldS newS : ProjectStatus)
  | progress (step msg : String)
  | snapshotSave
  | fileWrite (path : String)
  | createTestsCall (path : String)
  | runTestCall (path : String)
  | fixCall (path : String)
  | depsInstall
deriving DecidableEq, Repr

/-- State threaded through the pipeline: the in-memory entity, the on-disk
project files (append log, later writes win) and the event trace. -/
structure Run where
  st : ProjectState
  disk : List (String × String)
  evs : List Ev
deriving DecidableEq, Repr

def Run.emit (r : Run) (e : Ev) : Run :=
  { r with evs := r.evs ++ [e] }

/-- `project_state.update_status(s)` at a pipeline call site; the event
records the pair (status before, status written). -/
def Run.updateStatus (r : Run) (s : ProjectStatus) (now : Nat) : Run :=
  { r with st := r.st.update_status s now, evs := r.evs ++ [.status r.st.status s] }

/-- `update_progress(step, message, data)` (orchestrator.py lines 58-73):
appends a progress log entry to the entity, forwards the event to the sink
and schedules a state snapshot write. -/
def updateProgress (r : Run) (now : Nat) (step msg : String) (dat : LogData) : Run :=
  { r with st := r.st.add_log "progress" msg dat now,
           evs := r.evs ++ [.progress step msg, .snapshotSave] }

def Run.addLog (r : Run) (ltype msg : String) (dat : LogData) (now : Nat) : Run :=
  { r with st := r.st.add_log ltype msg dat now }

/-- `file_manager.save_file` from the pipeline (disk-space guard and path
guard abstracted; path safety is modelled separately on the store). -/
def Run.diskWrite (r : Run) (path content : String) : Run :=
  { r with disk := r.disk ++ [(path, content)], evs := r.evs ++ [.fileWrite path] }

/-- `file_manager.read_file`: last write wins, missing file reads as "". -/
def diskRead (d : List (String × String)) (p : String) : String :=
  (((d.reverse).find? (fun q => q.1 == p)).map Prod.snd).getD ""

/-- One iteration of the coding loop (orchestrator.py lines 110-162):
generation under timeout (timeout skips the file), optional enforcement and
one regeneration pass, then persist + `add_file` + log.  The first
component tracks `primary_language`. -/
def codingOneFile (O : Oracles) (now : Nat) (fs : FileSpec)
    (pr : String × Run) : String × Run :=
  let path := fs.path
  let lang := sToLower fs.language
  let primary := if lang ≠ "markdown" then lang else pr.1
  let r := updateProgress pr.2 now "coding"
    ("Creating file: " ++ path ++ " (" ++ lang ++ ")") []
  match O.develop fs with
  | .timeout =>
      let r := updateProgress r now "error"
        ("Timeout generating " ++ path ++ ". Skipping file.") []
      (primary, { r with st := r.st.add_error ("Timeout generating " ++ path) })
  | .ok code0 =>
      let cr :=
        match O.enforce code0 path (mget r.st.metadata "style_guide")
            (mget r.st.metadata "spec_constraints") with
        | .timeout => (code0, updateProgress r now "warning"
            ("Enforcement timed out for " ++ path ++ ". Skipping checks.") [])
        | .ok review =>
            if review.compliant then (code0, r)
            else
              let r := updateProgress r now "enforcement"
                ("Style Violation in " ++ path) [("violations", review.violations)]
              match O.rework fs review.feedback with
              | .timeout => (code0, updateProgress r now "warning"
                  ("Timeout fixing violations for " ++ path ++ ". Using original code.") [])
              | .ok code1 => (code1, r)
      let r := cr.2.diskWrite path cr.1
      let r := { r with st := ((r.st.add_file path).add_log "file_created"
        ("Created file: " ++ path) [("size", toString cr.1.length)] now) }
      (primary, r)

/-- The coding loop over the plan's file specs, in plan order. -/
def codingLoop (O : Oracles) (now : Nat) :
    List FileSpec → String × Run → String × Run
  | [], pr => pr
  | fs :: rest, pr => codingLoop O now rest (codingOneFile O now fs pr)

/-- Dependency installation step (orchestrator.py lines 164-168): external
subprocess, best-effort, no entity mutation beyond the progress log. -/
def depsStep (plan : Plan) (now : Nat) (r : Run) : Run :=
  if plan.dependencies.isEmpty then r
  else
    let r := updateProgress r now "dependencies"
      ("Installing dependencies: " ++ String.intercalate ", " plan.dependencies) []
    r.emit .depsInstall

/-- Per-file language lookup in the testing stage (orchestrator.py lines
177-181): first plan entry with matching path, defaulting to python. -/
def lookupLang (plan : Plan) (fp : String) : String :=
  (((plan.files.find? (fun f => f.path == fp)).map
    (fun f => sToLower f.language))).getD "python"

/-- Test artifact naming (orchestrator.py lines 202-203): Python's
`file_path.replace('.' + ext, '')` replaces every occurrence. -/
def testFileNameFor (file_lang fp : String) : String :=
  let ext := (sSplitDot fp).getLastD ""
  if file_lang == "python" then
    "test_" ++ (sReplace fp ("." ++ ext) "") ++ "." ++ ext
  else
    (sReplace fp ("." ++ ext) "") ++ ".test." ++ ext

/-- The bounded fix loop, `for attempt in range(2)` (orchestrator.py lines
220-245).  `fuel` counts the remaining iterations, `attempt` the Python
loop index.  A timeout of the fix call or of the re-run is caught by the
same `except` clause and breaks the loop; a passing re-run breaks with the
success log; otherwise the loop continues with the fixed code and the new
failure result. -/
def fixLoopGo (O : Oracles) (fp lang test_file : String) (now : Nat) :
    Nat → Nat → String → TestResult → Run → TestResult × Run
  | 0, _, _, tr, r => (tr, r)
  | fuel + 1, attempt, code, tr, r =>
      let r := updateProgress r now "fixing"
        ("Tests failed for " ++ fp ++ ". Attempting fix " ++
          toString (attempt + 1) ++ "/2...") []
      let r := r.addLog "test_failure" ("Tests failed for " ++ fp)
        [("error", tr.error)] now
      let r := r.emit (.fixCall fp)
      match O.fix_code code tr.error fp lang with
      | .timeout =>
          (tr, updateProgress r now "warning"
            ("Timeout trying to fix " ++ fp ++ ". Skipping fix.") [])
      | .ok fixed =>
          let r := r.diskWrite fp fixed
          let r := r.emit (.runTestCall test_file)
          match O.run_test test_file lang with
          | .timeout =>
              (tr, updateProgress r now "warning"
                ("Timeout trying to fix " ++ fp ++ ". Skipping fix.") [])
          | .ok tr2 =>
              if tr2.success then
                (tr2, updateProgress r now "fixing"
                  ("Fixed " ++ fp ++ " successfully!") [])
              else
                fixLoopGo O fp lang test_file now fuel (attempt + 1) fixed tr2 r

/-- One iteration of the testing loop (orchestrator.py lines 175-248).
Markdown files and files already named `test_*` are skipped; a timeout
creating tests skips the file; the initial test execution (lines 209-213)
is NOT wrapped in a per-step `try`, so its timeout propagates as an
uncaught exception (whose `str()` is empty). -/
def testingOneFile (O : Oracles) (plan : Plan) (now : Nat) (fp : String)
    (r : Run) : Except (String × Run) Run :=
  let file_lang := lookupLang plan fp
  if file_lang == "markdown" || sStartsWith fp "test_" then .ok r
  else
    let code := diskRead r.disk fp
    let r := updateProgress r now "testing" ("Creating tests for " ++ fp ++ "...") []
    let r := r.emit (.createTestsCall fp)
    match O.create_tests code fp file_lang with
    | .timeout =>
        .ok (updateProgress r now "warning"
          ("Timeout creating tests for " ++ fp ++ ". Skipping tests.") [])
    | .ok test_code =>
        let test_file := testFileNameFor file_lang fp
        let r := r.diskWrite test_file test_code
        let r := r.emit (.runTestCall test_file)
        match O.run_test test_file file_lang with
        | .timeout => .error ("", r)
        | .ok tr =>
            if tr.success then
              let r := updateProgress r now "testing" ("Tests passed for " ++ fp) []
              .ok (r.addLog "test_success" ("Tests passed for " ++ fp) [] now)
            else
              let res := fixLoopGo O fp file_lang test_file now 2 0 code tr r
              if res.1.success then .ok res.2
              else .ok (updateProgress res.2 now "warning"
                ("Could not fix all issues in " ++ fp) [])

/-- The testing loop over the entity's recorded files. -/
def testingLoop (O : Oracles) (plan : Plan) (now : Nat) :
    List String → Run → Except (String × Run) Run
  | [], r => .ok r
  | fp :: rest, r =>
      match testingOneFile O plan now fp r with
      | .error e => .error e
      | .ok r' => testingLoop O plan now rest r'

/-- Entering the planning stage (orchestrator.py lines 87-88). -/
def afterPlanning (now : Nat) (r : Run) : Run :=
  updateProgress (r.updateStatus .planning now) now "planning"
    "Creating project plan..." []

/-- Planning succeeded: log it and enter the coding stage (orchestrator.py
lines 103-107). -/
def afterPlanOk (plan : Plan) (now : Nat) (r : Run) : Run :=
  let r := r.addLog "planning" "Project plan created"
    [("tasks_count", toString plan.tasks.length)] now
  let r := r.updateStatus .coding now
  updateProgress r now "coding"
    ("Generating " ++ toString plan.files.length ++ " files...") []

/-- After the coding loop: dependency step, then enter the testing stage
(orchestrator.py lines 164-172). -/
def beforeTesting (plan : Plan) (now : Nat) (pr : String × Run) : Run :=
  let r := depsStep plan now pr.2
  let r := r.updateStatus .testing now
  updateProgress r now "testing"
    ("Testing " ++ sCapitalize pr.1 ++ " project...") []

/-- Completion (orchestrator.py lines 250-254). -/
def afterTesting (now : Nat) (r : Run) : Run :=
  let r2 := r.updateStatus .completed now
  updateProgress r2 now "completed" "Project generation complete!"
    [("files_count", toString r2.st.files.length)]

/-- The pipeline body (orchestrator.py lines 85-256): planning (timeout
raises `Exception("Planning stage timed out")`), coding loop, dependency
step, testing loop, completion. -/
def pipelineBody (O : Oracles) (now : Nat) (r : Run) : Except (String × Run) Run :=
  let r := afterPlanning now r
  match O.plan with
  | .timeout => .error ("Planning stage timed out", r)
  | .ok plan =>
      let r := afterPlanOk plan now r
      let pr := codingLoop O now plan.files ("python", r)
      let r := beforeTesting plan now pr
      match testingLoop O plan now r.st.files r with
      | .error e => .error e
      | .ok r => .ok (afterTesting now r)

/-- The pipeline body under the outer exception handler (orchestrator.py
lines 258-265): on any uncaught exception the project is marked FAILED, the
error recorded and logged, a failure progress event emitted, and the
exception re-raised (the second component carries it). -/
def runPipeline (O : Oracles) (now : Nat) (st0 : ProjectState) :
    Run × Option String :=
  match pipelineBody O now ⟨st0, [], []⟩ with
  | .ok r => (r, none)
  | .error (e, r) =>
      let r := r.updateStatus .failed now
      let r := { r with st := r.st.add_error e }
      let r := r.addLog "error" ("Project failed: " ++ e) [] now
      let r := updateProgress r now "failed" ("Project generation failed: " ++ e) []
      (r, some e)

/-- `create_project` (orchestrator.py lines 35-73) as it actually executes:
it builds the entity, sets its metadata, registers it, saves one initial
snapshot, defines the progress callback — and then falls off the end of the
function, returning `None`.  The stage-execution code (lines 85-265) sits
after the unconditional `return`/`raise` of `_run_with_timeout` and is
unreachable, so no collaborator is invoked and no status is changed; the
function takes no oracles at all.  Result: (registered entity, the single
snapshot written, the value returned to the caller). -/
def create_project (pid name goal : String) (tech : Option (List String))
    (style spc : Option String) (now : Nat) :
    ProjectState × Snapshot × Option ProjectState :=
  let st := ProjectState.init pid name goal tech now
  let st := { st with metadata :=
    [("style_guide", style), ("spec_constraints", spc)] }
  (st, st.to_dict, none)

/-! ## Artifact store path model (services/file_manager.py)

POSIX paths as (absolute?, segment list).  `pjoin` mirrors pathlib's `/`
(an absolute right operand replaces the left); `resolveP` mirrors
`Path.resolve()` on a symlink-free filesystem: anchor at the current
working directory when relative, then normalize `.`, empty and `..`
segments (with `..` at the root staying at the root). -/

structure PyPath where
  abs : Bool
  segs : List String
deriving DecidableEq, Repr

def pjoin (a b : PyPath) : PyPath :=
  if b.abs then b else ⟨a.abs, a.segs ++ b.segs⟩

def normStep (acc : List String) (s : String) : List String :=
  if s = "." ∨ s = "" then acc
  else if s = ".." then acc.dropLast
  else acc ++ [s]

def normSegs (segs : List String) : List String :=
  segs.foldl normStep []

/-- `Path.resolve()`: `cwd` is the already-canonical absolute working
directory of the process. -/
def resolveP (cwd : List String) (p : PyPath) : List String :=
  if p.abs then normSegs p.segs else normSegs (cwd ++ p.segs)

/-- `FileManager.workspace_path = Path("./workspace")` (a relative path). -/
def workspacePath : PyPath := ⟨false, ["workspace"]⟩

/-- `(self.workspace_path / project_id).resolve()` (file_manager.py line 34). -/
def projectDirOf (cwd : List String) (pid : PyPath) : List String :=
  resolveP cwd (pjoin workspacePath pid)

inductive FmErr where
  | invalidFilePath
deriving DecidableEq, Repr

/-- `_get_safe_path` (file_manager.py lines 27-49): resolve the combination
of project directory and requested path, succeed only when `relative_to`
holds, i.e. the project directory is a prefix of the canonical result. -/
def get_safe_path (cwd : List String) (pid fp : PyPath) :
    Except FmErr (List String) :=
  let projectDir := projectDirOf cwd pid
  let requested := resolveP cwd (pjoin ⟨true, projectDir⟩ fp)
  if projectDir.isPrefixOf requested then .ok requested
  else .error .invalidFilePath

/-- The absolute path `save_file` (file_manager.py lines 78-102) writes to:
`none` when the guard rejected the path and the write was refused. -/
def save_file_target (cwd : List String) (pid fp : PyPath) : Option (List String) :=
  match get_safe_path cwd pid fp with
  | .ok q => some q
  | .error _ => none

/-- The absolute path `read_file` (file_manager.py lines 104-116) opens:
`none` when the guard rejected the path (the caller then receives ""). -/
def read_file_target (cwd : List String) (pid fp : PyPath) : Option (List String) :=
  match get_safe_path cwd pid fp with
  | .ok q => some q
  | .error _ => none

/-! ## Read/recovery path and challenge sub-mode

World state around one project id: the in-memory cache entry
(`active_projects[pid]`), the snapshot file `.metadata.json` (absent,
corrupt, or valid), the project directory and its regular files, the
in-memory challenge record, and an event trace.  `save_project_state` /
`load_project_state` (file_manager.py lines 132-161) act on the `snap`
field; `get_project_files` (lines 118-130) walks all files. -/

inductive SnapFile where
  | valid (s : Snapshot)
  | corrupt
deriving DecidableEq, Repr

/-- `active_challenges[project_id]` (orchestrator.py lines 380-387). -/
structure Challenge where
  id : String
  file : String
  start_time : Nat
  original_code : String
  hint : String
  intel : String
deriving DecidableEq, Repr

structure World where
  cache : Option ProjectState
  snap : Option SnapFile
  dirExists : Bool
  files : List (String × String)
  challenge : Option Challenge
  evs : List Ev
deriving DecidableEq, Repr

/-- `get_project_files` (file_manager.py lines 118-130): empty when the
directory is missing; otherwise every file of the walk, the snapshot file
included (the walk does not skip hidden files). -/
def World.get_project_files (w : World) : List String :=
  if w.dirExists then
    w.files.map Prod.fst ++ (if w.snap.isSome then [".metadata.json"] else [])
  else []

/-- `read_file` against the world: "" on a missing file. -/
def World.readFile (w : World) (p : String) : String :=
  (((w.files.reverse).find? (fun q => q.1 == p)).map Prod.snd).getD ""

/-- Write/overwrite one project file. -/
def World.writeFile (w : World) (p c : String) : World :=
  { w with dirExists := true,
           files := (w.files.filter (fun q => q.1 ≠ p)) ++ [(p, c)] }

/-- The recovery branch of `get_project_state` (orchestrator.py lines
457-491): build a placeholder entity (the constructor starts it at PENDING,
the next line assigns COMPLETED directly — recorded as a status event),
populate `files` from the directory listing minus names ending in
`.metadata.json`, log, persist the reconstructed snapshot, cache it. -/
def recoverOrNone (w : World) (pid : String) (now : Nat) :
    Option ProjectState × World :=
  if w.dirExists then
    let s0 := ProjectState.init pid ("Recovered Project " ++ pid)
      "Recovered from existing files" (some ["unknown"]) now
    let s1 := { s0 with status := .completed }
    let fl := (w.get_project_files).filter (fun f => !(sEndsWith f ".metadata.json"))
    let s2 := { s1 with files := fl }
    let s3 := s2.add_log "recovery" "Project state recovered from disk files" [] now
    (some s3,
      { w with
          snap := some (.valid s3.to_dict)
          cache := some s3
          evs := w.evs ++ [.status s0.status .completed, .snapshotSave] })
  else (none, w)

/-- `get_project_state` (orchestrator.py lines 442-491): memory cache
first; else load and rehydrate the snapshot (a corrupt file loads as
`None`, a rehydration error is caught); else the recovery branch. -/
def get_project_state (w : World) (pid : String) (now : Nat) :
    Option ProjectState × World :=
  match w.cache with
  | some s => (some s, w)
  | none =>
      match w.snap with
      | some (.valid d) =>
          match ProjectState.from_dict d with
          | some s => (some s, { w with cache := some s })
          | none => recoverOrNone w pid now
      | some .corrupt => recoverOrNone w pid now
      | none => recoverOrNone w pid now

/-- Eligibility filter of `start_dojo_challenge` (orchestrator.py line
347): not named `test_*` and ending in `.py`, `.js` or `.go`. -/
def eligibleDojoFiles (files : List String) : List String :=
  files.filter (fun f =>
    !(sStartsWith f "test_") &&
      (sEndsWith f ".py" || sEndsWith f ".js" || sEndsWith f ".go"))

inductive DojoErr where
  | notFound
  | noEligible
  | sabotageTimeout
deriving DecidableEq, Repr

/-- Result dict of `saboteur.sabotage_file` as the orchestrator reads it. -/
structure SabResult where
  sabotaged_code : Option String
  mission_hint : Option String
  intel : Option String
deriving DecidableEq, Repr

/-- `start_dojo_challenge` (orchestrator.py lines 338-394): resolve the
entity, filter eligible source files (raising when none), pick one (the
random choice is modelled by the index `pick`), read the original, invoke
the sabotage oracle under a timeout (timeout aborts with no state change),
overwrite the file, record the challenge, log, and return the message. -/
def start_dojo_challenge (w : World) (pid : String) (now : Nat)
    (sab : String → String → String → StepResult SabResult) (pick : Nat) :
    Except DojoErr String × World :=
  match get_project_state w pid now with
  | (none, w') => (.error .notFound, w')
  | (some st, w') =>
      let source_files := eligibleDojoFiles st.files
      if source_files.isEmpty then (.error .noEligible, w')
      else
        let target := source_files.getD (pick % source_files.length) ""
        let original := w'.readFile target
        let ext := (sSplitDot target).getLastD ""
        let lang := if ext = "py" then "python"
          else if ext = "js" ∨ ext = "ts" then "javascript" else "go"
        match sab original target lang with
        | .timeout => (.error .sabotageTimeout, w')
        | .ok res =>
            let sabotaged := res.sabotaged_code.getD original
            let hint := res.mission_hint.getD "Systems failing. No diagnostic data."
            let intel := res.intel.getD "Logic breach in core modules."
            let w2 := w'.writeFile target sabotaged
            let ch : Challenge := ⟨"dojo_" ++ toString now, target, now, original,
              hint, intel⟩
            let st2 := st.add_log "dojo_challenge"
              ("Dojo Challenge Started: Sabotaged " ++ target)
              [("challenge_id", ch.id), ("intel", intel)] now
            let w3 := { w2 with challenge := some ch, cache := some st2 }
            (.ok ("A subtle logic bug has been injected into the system. ERROR INTEL: "
              ++ intel ++ " MISSION HINT: " ++ hint), w3)

/-! ## Derived notions used by the claims -/

/-- The forward transition table of §4.3 of the spec:
PENDING → PLANNING → CODING → TESTING → COMPLETED, with FAILED reachable
from each non-terminal state of that chain. -/
def forwardAllowed : ProjectStatus → ProjectStatus → Bool
  | .pending, .planning => true
  | .planning, .coding => true
  | .coding, .testing => true
  | .testing, .completed => true
  | .pending, .failed => true
  | .planning, .failed => true
  | .coding, .failed => true
  | .testing, .failed => true
  | _, _ => false

/-- Project the status-write events out of a trace. -/
def statusOf : Ev → Option (ProjectStatus × ProjectStatus)
  | .status a b => some (a, b)
  | _ => none

def sEvsL (l : List Ev) : List (ProjectStatus × ProjectStatus) :=
  l.filterMap statusOf

def isFixCall : Ev → Bool
  | .fixCall _ => true
  | _ => false

/-- Number of fix-collaborator invocations recorded in a trace. -/
def fixCalls (l : List Ev) : Nat :=
  l.countP (fun e => isFixCall e)

def isAction : Ev → Bool
  | .fixCall _ => true
  | .fileWrite _ => true
  | .runTestCall _ => true
  | .createTestsCall _ => true
  | _ => false

/-- External-call and disk-write events of a trace, in order. -/
def actionEvs (l : List Ev) : List Ev :=
  l.filter (fun e => isAction e)

def isFileWrite : Ev → Bool
  | .fileWrite _ => true
  | _ => false

/-- Both branches of an `Except` pipeline outcome carry a `Run`. -/
def runOf : Except (String × Run) Run → Run
  | .ok r => r
  | .error e => e.2

/-- Status field and status events unchanged between two runs. -/
def noStatusChange (r r' : Run) : Prop :=
  r'.st.status = r.st.status ∧ sEvsL r'.evs = sEvsL r.evs

/-- Disk file names of a world that survive the recovery filter. -/
def cleanNames (w : World) : List String :=
  (w.files.map Prod.fst).filter (fun f => !(sEndsWith f ".metadata.json"))

/-- Fixture: collaborators whose verifier always fails and whose fix
collaborator always returns fixed code. -/
def failVerifierOracles : Oracles :=
  ⟨.timeout, fun _ => .ok "", fun _ _ => .ok "",
    fun _ _ _ _ => .ok ⟨true, "", ""⟩, fun _ _ _ => .ok "TESTS",
    fun _ _ => .ok ⟨false, "BOOM"⟩, fun _ _ _ _ => .ok "FIXED"⟩

/-- Fixture: same verifier, but the fix collaborator times out. -/
def timeoutFixerOracles : Oracles :=
  ⟨.timeout, fun _ => .ok "", fun _ _ => .ok "",
    fun _ _ _ _ => .ok ⟨true, "", ""⟩, fun _ _ _ => .ok "TESTS",
    fun _ _ => .ok ⟨false, "BOOM"⟩, fun _ _ _ _ => .timeout⟩

/-- Fixture: a plan with a single python file. -/
def onePyPlan : Plan :=
  ⟨"n", "g", [], [⟨"main.py", "d", "python"⟩], [], [], "1 hour", none⟩

/-- Fixture: a run whose entity and disk carry that one file. -/
def onePyRun : Run :=
  ⟨ProjectState.init "p1" "n" "g" none 0, [("main.py", "CODE")], []⟩

/-! ## Theorems -/

/-- C3: `create_project` registers the entity with its metadata set,
persists exactly the initial snapshot, and returns `None` with the status
still PENDING; it takes no collaborators at all (the stage-execution code
sits after the unconditional return/raise inside `_run_with_timeout` and is
unreachable), so no stage runs and no status transition occurs. -/
theorem c3_create_project_inert (pid name goal : String)
    (tech : Option (List String)) (style spc : Option String) (now : Nat) :
    (create_project pid name goal tech style spc now).2.2 = none ∧
    (create_project pid name goal tech style spc now).1 =
      { ProjectState.init pid name goal tech now with
        metadata := [("style_guide", style), ("spec_constraints", spc)] } ∧
    (create_project pid name goal tech style spc now).1.status = .pending ∧
    (create_project pid name goal tech style spc now).1.files = [] ∧
    (create_project pid name goal tech style spc now).1.logs = [] ∧
    (create_project pid name goal tech style spc now).1.errors = [] ∧
    (create_project pid name goal tech style spc now).2.1 =
      (create_project pid name goal tech style spc now).1.to_dict :=
  ⟨rfl, rfl, rfl, rfl, rfl, rfl, rfl⟩

/-- C4 counterexample: the snapshot written by `to_dict` has no
`tech_stack` key, so for an entity whose tech stack is `["go"]` the round
trip returns `["python"]` instead: the round trip is not lossless. -/
theorem c4_counterexample :
    ((ProjectState.init "p1" "n" "g" (some ["go"]) 0).to_dict).tech_stack = none ∧
    ((ProjectState.from_dict
        (ProjectState.init "p1" "n" "g" (some ["go"]) 0).to_dict).map
      (fun q => q.tech_stack)) = some ["python"] ∧
    (ProjectState.init "p1" "n" "g" (some ["go"]) 0).tech_stack = ["go"] ∧
    (["python"] : List String) ≠ ["go"] := by
  refine ⟨rfl, ?_, rfl, by decide⟩
  rw [from_dict_to_dict]
  rfl

/-- C4 amended: the persisted snapshot contains every Project attribute
EXCEPT the tech stack, which `to_dict` omits; `fromSnapshot(toSnapshot(p))`
reproduces every other attribute losslessly while the tech stack always
comes back as the default `["python"]`. -/
theorem c4_roundtrip_amended (p : ProjectState) :
    (p.to_dict).tech_stack = none ∧
    ProjectState.from_dict p.to_dict = some { p with tech_stack := ["python"] } :=
  ⟨rfl, from_dict_to_dict p⟩

/-- C5: for any entity `p`, `fromSnapshot(toSnapshot(p))` succeeds and
reproduces `files`, `errors`, `logs`, `status` and `metadata` identically. -/
theorem c5_roundtrip_core (p : ProjectState) :
    ∃ q, ProjectState.from_dict p.to_dict = some q ∧
      q.files = p.files ∧ q.errors = p.errors ∧ q.logs = p.logs ∧
      q.status = p.status ∧ q.metadata = p.metadata :=
  ⟨{ p with tech_stack := ["python"] }, from_dict_to_dict p, rfl, rfl, rfl, rfl, rfl⟩

/-- C10 counterexample: `add_file` performs a plain append with no
membership check, so adding the same path twice yields a files list in
which the path occurs twice — duplicates are not forbidden. -/
theorem c10_counterexample :
    (((ProjectState.init "p1" "n" "g" none 0).add_file "a.py").add_file
      "a.py").files = ["a.py", "a.py"] ∧
    ¬ ((((ProjectState.init "p1" "n" "g" none 0).add_file "a.py").add_file
      "a.py").files).Nodup := by
  constructor
  · rfl
  · decide

/-- C10 amended: `add_file` appends unconditionally: insertion order is
preserved, but a path already present is appended again, so its
multiplicity grows and duplicates can occur. -/
theorem c10_addfile_appends (p : ProjectState) (f : String) :
    (p.add_file f).files = p.files ++ [f] ∧
    (p.add_file f).files.count f = p.files.count f + 1 := by
  refine ⟨rfl, ?_⟩
  simp [ProjectState.add_file]

/-- C2: the store's path guard: whenever the canonicalized combination of
project directory and requested path does not lie within the project
directory, `_get_safe_path` fails with the path-traversal error and both
`save_file` and `read_file` refuse to touch any file; conversely every path
they do touch lies within the project directory.  This holds for all
id/path combinations, including `..` segments and absolute paths. -/
theorem c2_path_guard (cwd : List String) (pid fp : PyPath) :
    (¬ (projectDirOf cwd pid).isPrefixOf
        (resolveP cwd (pjoin ⟨true, projectDirOf cwd pid⟩ fp)) = true →
      get_safe_path cwd pid fp = .error .invalidFilePath ∧
      save_file_target cwd pid fp = none ∧
      read_file_target cwd pid fp = none) ∧
    (∀ q, save_file_target cwd pid fp = some q →
      (projectDirOf cwd pid).isPrefixOf q = true) ∧
    (∀ q, read_file_target cwd pid fp = some q →
      (projectDirOf cwd pid).isPrefixOf q = true) := by
  by_cases hb : (projectDirOf cwd pid).isPrefixOf
      (resolveP cwd (pjoin ⟨true, projectDirOf cwd pid⟩ fp)) = true
  · refine ⟨fun h => absurd hb h, ?_, ?_⟩ <;>
      · intro q hq
        simp only [save_file_target, read_file_target, get_safe_path, hb,
          if_true] at hq
        cases hq
        exact hb
  · have hg : get_safe_path cwd pid fp = .error .invalidFilePath := by
      simp only [get_safe_path]
      rw [if_neg]
      simpa using hb
    refine ⟨fun _ => ⟨hg, ?_, ?_⟩, ?_, ?_⟩
    · simp [save_file_target, hg]
    · simp [read_file_target, hg]
    · intro q hq
      simp [save_file_target, hg] at hq
    · intro q hq
      simp [read_file_target, hg] at hq

/-- C2 witness: the spec's own example: project `proj1`, requested path
`../../etc/passwd` resolves to a location outside the project directory
and is rejected; the write and read refuse it. -/
theorem c2_path_guard_witness :
    get_safe_path ["app"] ⟨false, ["proj1"]⟩ ⟨false, ["..", "..", "etc", "passwd"]⟩
      = .error .invalidFilePath ∧
    save_file_target ["app"] ⟨false, ["proj1"]⟩
      ⟨false, ["..", "..", "etc", "passwd"]⟩ = none ∧
    read_file_target ["app"] ⟨false, ["proj1"]⟩
      ⟨false, ["..", "..", "etc", "passwd"]⟩ = none :=
  (c2_path_guard ["app"] ⟨false, ["proj1"]⟩
    ⟨false, ["..", "..", "etc", "passwd"]⟩).1 (by decide)

/-- The read/recovery path only ever touches the snapshot, cache and event
trace: project files and the challenge record are untouched. -/
lemma get_project_state_preserves (w : World) (pid : String) (now : Nat) :
    (get_project_state w pid now).2.files = w.files ∧
    (get_project_state w pid now).2.challenge = w.challenge := by
  unfold get_project_state recoverOrNone
  rcases hc : w.cache with _ | s
  · rcases hs : w.snap with _ | sf
    · by_cases hd : w.dirExists = true <;> simp [hd]
    · rcases sf with d | _
      · rcases hf : ProjectState.from_dict d with _ | s'
        · by_cases hd : w.dirExists = true <;> simp [hf, hd]
        · simp [hf]
      · by_cases hd : w.dirExists = true <;> simp [hd]
  · simp

/-- C9: starting a challenge on a project whose recorded file list has no
eligible source file (not `test_*`, extension `.py`/`.js`/`.go`) fails with
the no-eligible-file error, and the failed operation modifies no project
file and creates no challenge record. -/
theorem c9_no_eligible_file (w w' : World) (st : ProjectState) (pid : String)
    (now : Nat) (sab : String → String → String → StepResult SabResult)
    (pick : Nat)
    (hget : get_project_state w pid now = (some st, w'))
    (helig : eligibleDojoFiles st.files = []) :
    start_dojo_challenge w pid now sab pick = (.error .noEligible, w') ∧
    w'.files = w.files ∧ w'.challenge = w.challenge := by
  have hp := get_project_state_preserves w pid now
  rw [hget] at hp
  refine ⟨?_, hp.1, hp.2⟩
  unfold start_dojo_challenge
  rw [hget]
  simp [helig]

/-- C9 witness: a cached project whose only file is `README.md` has no
eligible source file; the challenge fails and changes nothing. -/
theorem c9_no_eligible_file_witness :
    start_dojo_challenge
      ⟨some { ProjectState.init "p1" "n" "g" none 0 with files := ["README.md"] },
        none, true, [("README.md", "docs")], none, []⟩
      "p1" 0 (fun _ _ _ => .timeout) 0 =
      (.error .noEligible,
        ⟨some { ProjectState.init "p1" "n" "g" none 0 with files := ["README.md"] },
          none, true, [("README.md", "docs")], none, []⟩) ∧
    (⟨some { ProjectState.init "p1" "n" "g" none 0 with files := ["README.md"] },
        none, true, [("README.md", "docs")], none, []⟩ : World).files =
      [("README.md", "docs")] ∧
    (⟨some { ProjectState.init "p1" "n" "g" none 0 with files := ["README.md"] },
        none, true, [("README.md", "docs")], none, []⟩ : World).challenge = none := by
  have h := c9_no_eligible_file
    ⟨some { ProjectState.init "p1" "n" "g" none 0 with files := ["README.md"] },
      none, true, [("README.md", "docs")], none, []⟩
    ⟨some { ProjectState.init "p1" "n" "g" none 0 with files := ["README.md"] },
      none, true, [("README.md", "docs")], none, []⟩
    { ProjectState.init "p1" "n" "g" none 0 with files := ["README.md"] }
    "p1" 0 (fun _ _ _ => .timeout) 0 rfl (by decide)
  exact ⟨h.1, rfl, rfl⟩

/-- C8 counterexample: a project directory containing only the hidden file
`.env` has zero non-hidden files, yet recovery reconstructs a file list of
length one: the recovery filter excludes only names ending in
`.metadata.json`, not hidden files in general, so the reconstructed list
does not have length N (= number of non-hidden files). -/
theorem c8_counterexample :
    ((((⟨none, none, true, [(".env", "x")], none, []⟩ : World).files.map
      Prod.fst).filter (fun f => !(sStartsWith f "."))).length = 0) ∧
    ((get_project_state ⟨none, none, true, [(".env", "x")], none, []⟩
      "p1" 0).1.map (fun s => s.files)) = some [".env"] ∧
    (([".env"] : List String).length ≠ 0) := by
  refine ⟨by decide, ?_, by decide⟩
  rfl

/-- C8 amended: recovery is idempotent, but the reconstructed file list
consists of ALL files on disk whose names do not end in `.metadata.json`
(hidden files other than the snapshot are included, and any file whose
name ends in `.metadata.json` is excluded, hidden or not).  Calling the
read path twice — whether the second call hits the in-memory cache or,
after a cache loss, rehydrates the snapshot written by the first call —
yields identical file lists; the snapshot file written by the first
recovery is excluded from the second result.  The entity has status
COMPLETED and placeholder name/goal, and the list has length N (the number
of non-hidden files) whenever no file is hidden and none matches the
snapshot suffix. -/
theorem c8_recovery_idempotent (w : World) (pid : String) (now now2 now3 : Nat)
    (hc : w.cache = none) (hs : w.snap = none ∨ w.snap = some .corrupt)
    (hd : w.dirExists = true) :
    ∃ s1 w1, get_project_state w pid now = (some s1, w1) ∧
      s1.files = cleanNames w ∧
      s1.status = .completed ∧
      s1.project_name = "Recovered Project " ++ pid ∧
      s1.goal = "Recovered from existing files" ∧
      ((get_project_state w1 pid now2).1.map (fun s => s.files))
        = some (cleanNames w) ∧
      ((get_project_state { w1 with cache := none } pid now3).1.map
        (fun s => s.files)) = some (cleanNames w) ∧
      ((∀ f ∈ w.files.map Prod.fst, sStartsWith f "." = false ∧
          sEndsWith f ".metadata.json" = false) →
        (cleanNames w).length = w.files.length) := by
  have hflen : (∀ f ∈ w.files.map Prod.fst, sStartsWith f "." = false ∧
      sEndsWith f ".metadata.json" = false) →
      (cleanNames w).length = w.files.length := by
    intro hall
    have hself : cleanNames w = w.files.map Prod.fst := by
      apply List.filter_eq_self.mpr
      intro a ha
      simp [(hall a ha).2]
    rw [hself, List.length_map]
  obtain ⟨cache, snap, dirE, files, ch, evs⟩ := w
  obtain rfl : cache = none := hc
  obtain rfl : dirE = true := hd
  rcases hs with hs | hs
  · obtain rfl : snap = none := hs
    refine ⟨_, _, rfl, ?_, rfl, rfl, rfl, ?_, ?_, hflen⟩
    · simp [cleanNames, World.get_project_files, ProjectState.add_log]
    · simp [get_project_state, cleanNames, World.get_project_files,
        ProjectState.add_log]
    · simp [get_project_state, from_dict_to_dict, cleanNames,
        World.get_project_files, ProjectState.add_log]
  · obtain rfl : snap = some .corrupt := hs
    have hsnapname : sEndsWith ".metadata.json" ".metadata.json" = true := by
      decide
    refine ⟨_, _, rfl, ?_, rfl, rfl, rfl, ?_, ?_, hflen⟩
    · simp [cleanNames, World.get_project_files, ProjectState.add_log, hsnapname]
    · simp [get_project_state, cleanNames, World.get_project_files,
        ProjectState.add_log, hsnapname]
    · simp [get_project_state, from_dict_to_dict, cleanNames,
        World.get_project_files, ProjectState.add_log, hsnapname]

/-- C8 witness: a directory with two regular files and no snapshot:
recovery yields `["a.py", "README.md"]` from both calls, of length 2. -/
theorem c8_recovery_idempotent_witness :
    ∃ s1 w1, get_project_state
        ⟨none, none, true, [("a.py", "x"), ("README.md", "y")], none, []⟩
        "p1" 0 = (some s1, w1) ∧
      s1.files = cleanNames
        ⟨none, none, true, [("a.py", "x"), ("README.md", "y")], none, []⟩ ∧
      s1.status = .completed ∧
      s1.project_name = "Recovered Project " ++ "p1" ∧
      s1.goal = "Recovered from existing files" ∧
      ((get_project_state w1 "p1" 1).1.map (fun s => s.files)) = some (cleanNames
        ⟨none, none, true, [("a.py", "x"), ("README.md", "y")], none, []⟩) ∧
      ((get_project_state { w1 with cache := none } "p1" 2).1.map
        (fun s => s.files)) = some (cleanNames
        ⟨none, none, true, [("a.py", "x"), ("README.md", "y")], none, []⟩) ∧
      ((∀ f ∈ (⟨none, none, true, [("a.py", "x"), ("README.md", "y")], none, []⟩
          : World).files.map Prod.fst, sStartsWith f "." = false ∧
          sEndsWith f ".metadata.json" = false) →
        (cleanNames ⟨none, none, true, [("a.py", "x"), ("README.md", "y")],
          none, []⟩).length =
        (⟨none, none, true, [("a.py", "x"), ("README.md", "y")], none, []⟩
          : World).files.length) :=
  c8_recovery_idempotent
    ⟨none, none, true, [("a.py", "x"), ("README.md", "y")], none, []⟩
    "p1" 0 1 2 rfl (Or.inl rfl) rfl

/-- C1 counterexample: the recovery path constructs the entity (which the
constructor starts at PENDING) and then assigns COMPLETED directly — a
PENDING→COMPLETED jump that skips PLANNING, CODING and TESTING and is not
in the forward transition table; moreover the entity's `update_status`
itself accepts any transition unchecked. -/
theorem c1_counterexample :
    sEvsL (get_project_state ⟨none, none, true, [("a.py", "x")], none, []⟩
      "p1" 0).2.evs = [(.pending, .completed)] ∧
    forwardAllowed .pending .completed = false ∧
    ((ProjectState.init "p" "n" "g" none 0).update_status .completed 1).status
      = .completed :=
  ⟨rfl, rfl, rfl⟩

lemma sEvsL_append (a b : List Ev) : sEvsL (a ++ b) = sEvsL a ++ sEvsL b := by
  simp [sEvsL]

lemma noStatusChange_trans {a b c : Run} (h1 : noStatusChange a b)
    (h2 : noStatusChange b c) : noStatusChange a c :=
  ⟨h2.1.trans h1.1, h2.2.trans h1.2⟩

/-- Transitivity with the second leg first, so that unification pins the
middle run from the structured argument. -/
lemma noStatusChange_trans2 {a b c : Run} (h2 : noStatusChange b c)
    (h1 : noStatusChange a b) : noStatusChange a c :=
  ⟨h2.1.trans h1.1, h2.2.trans h1.2⟩

lemma noStatus_updateProgress (r : Run) (now : Nat) (a b : String)
    (d : LogData) : noStatusChange r (updateProgress r now a b d) :=
  ⟨rfl, by simp [updateProgress, sEvsL, statusOf]⟩

set_option maxHeartbeats 1000000 in
/-- The coding loop writes files, errors and logs, but never touches the
status field and emits no status event. -/
lemma noStatus_codingOneFile (O : Oracles) (now : Nat) (fs : FileSpec)
    (pr : String × Run) : noStatusChange pr.2 (codingOneFile O now fs pr).2 := by
  obtain ⟨prim, r⟩ := pr
  simp only [codingOneFile]
  repeat' split
  all_goals exact ⟨rfl, by
    simp [updateProgress, Run.diskWrite, Run.emit, sEvsL, statusOf,
      ProjectState.add_log, ProjectState.add_error, ProjectState.add_file]⟩

lemma noStatus_codingLoop (O : Oracles) (now : Nat) :
    ∀ (l : List FileSpec) (pr : String × Run),
      noStatusChange pr.2 (codingLoop O now l pr).2
  | [], _ => ⟨rfl, rfl⟩
  | fs :: rest, pr =>
      noStatusChange_trans (noStatus_codingOneFile O now fs pr)
        (noStatus_codingLoop O now rest (codingOneFile O now fs pr))

/-- The fix loop writes files and logs, but never touches the status field
and emits no status event. -/
lemma noStatus_fixLoopGo (O : Oracles) (fp lang tf : String) (now : Nat) :
    ∀ (fuel attempt : Nat) (code : String) (tr : TestResult) (r : Run),
      noStatusChange r (fixLoopGo O fp lang tf now fuel attempt code tr r).2
  | 0, _, _, _, _ => ⟨rfl, rfl⟩
  | fuel + 1, attempt, code, tr, r => by
      simp only [fixLoopGo]
      repeat' split
      all_goals
        first
          | exact ⟨rfl, by
              simp [updateProgress, Run.diskWrite, Run.emit, Run.addLog,
                sEvsL, statusOf, ProjectState.add_log]⟩
          | exact noStatusChange_trans2
              (noStatus_fixLoopGo O fp lang tf now fuel _ _ _ _)
              ⟨rfl, by
                simp [updateProgress, Run.diskWrite, Run.emit, Run.addLog,
                  sEvsL, statusOf, ProjectState.add_log]⟩

lemma noStatus_testingOneFile (O : Oracles) (plan : Plan) (now : Nat)
    (fp : String) (r : Run) :
    noStatusChange r (runOf (testingOneFile O plan now fp r)) := by
  simp only [testingOneFile]
  repeat' split
  all_goals simp only [runOf]
  all_goals
    first
      | exact ⟨rfl, rfl⟩
      | exact ⟨rfl, by
          simp [updateProgress, Run.diskWrite, Run.emit, Run.addLog,
            sEvsL, statusOf, ProjectState.add_log]⟩
      | exact noStatusChange_trans2
          (noStatus_fixLoopGo O fp (lookupLang plan fp)
            (testFileNameFor (lookupLang plan fp) fp) now 2 0 _ _ _)
          ⟨rfl, by
            simp [updateProgress, Run.diskWrite, Run.emit, Run.addLog,
              sEvsL, statusOf, ProjectState.add_log]⟩
      | exact noStatusChange_trans2 (noStatus_updateProgress _ _ _ _ _)
          (noStatusChange_trans2
            (noStatus_fixLoopGo O fp (lookupLang plan fp)
              (testFileNameFor (lookupLang plan fp) fp) now 2 0 _ _ _)
            ⟨rfl, by
              simp [updateProgress, Run.diskWrite, Run.emit, Run.addLog,
                sEvsL, statusOf, ProjectState.add_log]⟩)

lemma noStatus_testingLoop (O : Oracles) (plan : Plan) (now : Nat) :
    ∀ (l : List String) (r : Run),
      noStatusChange r (runOf (testingLoop O plan now l r))
  | [], _ => ⟨rfl, rfl⟩
  | fp :: rest, r => by
      simp only [testingLoop]
      cases heq : testingOneFile O plan now fp r with
      | error e =>
          have h1 := noStatus_testingOneFile O plan now fp r
          rw [heq] at h1
          exact h1
      | ok r' =>
          have h1 := noStatus_testingOneFile O plan now fp r
          rw [heq] at h1
          exact noStatusChange_trans h1 (noStatus_testingLoop O plan now rest r')

lemma depsStep_noStatus (plan : Plan) (now : Nat) (r : Run) :
    noStatusChange r (depsStep plan now r) := by
  unfold depsStep
  split
  · exact ⟨rfl, rfl⟩
  · exact ⟨rfl, by simp [updateProgress, Run.emit, sEvsL, statusOf,
      ProjectState.add_log]⟩

lemma afterPlanning_status (now : Nat) (r : Run) :
    (afterPlanning now r).st.status = .planning := rfl

lemma afterPlanning_sEvs (now : Nat) (r : Run) :
    sEvsL (afterPlanning now r).evs = sEvsL r.evs ++ [(r.st.status, .planning)] := by
  simp [afterPlanning, updateProgress, Run.updateStatus, sEvsL, statusOf]

lemma afterPlanOk_status (plan : Plan) (now : Nat) (r : Run) :
    (afterPlanOk plan now r).st.status = .coding := rfl

lemma afterPlanOk_sEvs (plan : Plan) (now : Nat) (r : Run) :
    sEvsL (afterPlanOk plan now r).evs = sEvsL r.evs ++ [(r.st.status, .coding)] := by
  simp [afterPlanOk, updateProgress, Run.updateStatus, Run.addLog, sEvsL,
    statusOf, ProjectState.add_log]

lemma beforeTesting_status (plan : Plan) (now : Nat) (pr : String × Run) :
    (beforeTesting plan now pr).st.status = .testing := rfl

lemma beforeTesting_sEvs (plan : Plan) (now : Nat) (pr : String × Run) :
    sEvsL (beforeTesting plan now pr).evs
      = sEvsL pr.2.evs ++ [(pr.2.st.status, .testing)] := by
  obtain ⟨h1, h2⟩ := depsStep_noStatus plan now pr.2
  simp only [beforeTesting, updateProgress, Run.updateStatus, Run.addLog]
  rw [sEvsL_append, sEvsL_append, h2, h1]
  simp [sEvsL, statusOf]

lemma afterTesting_status (now : Nat) (r : Run) :
    (afterTesting now r).st.status = .completed := rfl

lemma afterTesting_sEvs (now : Nat) (r : Run) :
    sEvsL (afterTesting now r).evs = sEvsL r.evs ++ [(r.st.status, .completed)] := by
  simp [afterTesting, updateProgress, Run.updateStatus, sEvsL, statusOf]

/-- Shape of the pipeline body's status trace: the successful path walks
PLANNING, CODING, TESTING, COMPLETED in order; an uncaught failure leaves
the body either right after entering PLANNING (planning timeout) or right
after entering TESTING (uncaught test-run timeout). -/
lemma pipelineBody_shape (O : Oracles) (now : Nat) (r : Run) :
    (∃ r', pipelineBody O now r = .ok r' ∧ r'.st.status = .completed ∧
      sEvsL r'.evs = sEvsL r.evs ++ [(r.st.status, .planning),
        (.planning, .coding), (.coding, .testing), (.testing, .completed)]) ∨
    (∃ e r', pipelineBody O now r = .error (e, r') ∧
      ((r'.st.status = .planning ∧
          sEvsL r'.evs = sEvsL r.evs ++ [(r.st.status, .planning)]) ∨
        (r'.st.status = .testing ∧
          sEvsL r'.evs = sEvsL r.evs ++ [(r.st.status, .planning),
            (.planning, .coding), (.coding, .testing)]))) := by
  unfold pipelineBody
  cases hplan : O.plan with
  | timeout =>
      right
      exact ⟨_, _, rfl, Or.inl ⟨afterPlanning_status now r,
        afterPlanning_sEvs now r⟩⟩
  | ok plan =>
      obtain ⟨hcs, hce⟩ := noStatus_codingLoop O now plan.files
        ("python", afterPlanOk plan now (afterPlanning now r))
      have hchain : sEvsL (beforeTesting plan now (codingLoop O now plan.files
          ("python", afterPlanOk plan now (afterPlanning now r)))).evs
          = sEvsL r.evs ++ [(r.st.status, .planning), (.planning, .coding),
            (.coding, .testing)] := by
        rw [beforeTesting_sEvs, hce, hcs, afterPlanOk_sEvs, afterPlanning_sEvs,
          afterPlanOk_status, afterPlanning_status]
        simp
      cases heq : testingLoop O plan now
          (beforeTesting plan now (codingLoop O now plan.files
            ("python", afterPlanOk plan now (afterPlanning now r)))).st.files
          (beforeTesting plan now (codingLoop O now plan.files
            ("python", afterPlanOk plan now (afterPlanning now r)))) with
      | error e =>
          right
          obtain ⟨e1, rE⟩ := e
          have h1 := noStatus_testingLoop O plan now
            (beforeTesting plan now (codingLoop O now plan.files
              ("python", afterPlanOk plan now (afterPlanning now r)))).st.files
            (beforeTesting plan now (codingLoop O now plan.files
              ("python", afterPlanOk plan now (afterPlanning now r))))
          rw [heq] at h1
          simp only [runOf] at h1
          refine ⟨e1, rE, ?_, Or.inr ⟨?_, ?_⟩⟩
          · simp only [heq]
          · exact h1.1.trans (beforeTesting_status plan now _)
          · exact h1.2.trans hchain
      | ok rT =>
          left
          have h1 := noStatus_testingLoop O plan now
            (beforeTesting plan now (codingLoop O now plan.files
              ("python", afterPlanOk plan now (afterPlanning now r)))).st.files
            (beforeTesting plan now (codingLoop O now plan.files
              ("python", afterPlanOk plan now (afterPlanning now r))))
          rw [heq] at h1
          simp only [runOf] at h1
          refine ⟨afterTesting now rT, ?_, afterTesting_status now rT, ?_⟩
          · simp only [heq]
          · rw [afterTesting_sEvs, h1.2, hchain, h1.1.trans
              (beforeTesting_status plan now _)]
            simp

/-- C1 amended: every status write the pipeline body performs follows the
forward transition table (PENDING→PLANNING→CODING→TESTING→COMPLETED, with
FAILED from a non-terminal state); the recovery path is the exception: it
sets a freshly constructed entity (PENDING) directly to COMPLETED, and the
entity's `update_status` itself enforces no transition check. -/
theorem c1_pipeline_forward_only (O : Oracles) (now : Nat) (st0 : ProjectState)
    (h0 : st0.status = .pending) :
    (∀ p ∈ sEvsL (runPipeline O now st0).1.evs, forwardAllowed p.1 p.2 = true) ∧
    (∀ (w : World) (pid : String) (now2 : Nat), w.cache = none → w.snap = none →
      w.dirExists = true →
      sEvsL (get_project_state w pid now2).2.evs
        = sEvsL w.evs ++ [(.pending, .completed)]) := by
  constructor
  · rcases pipelineBody_shape O now ⟨st0, [], []⟩ with
      ⟨r', heq, _, hevs⟩ | ⟨e, r', heq, hcase⟩
    · unfold runPipeline
      rw [heq]
      intro p hp
      rw [hevs] at hp
      simp only [show (Run.mk st0 [] []).evs = [] from rfl,
        show (Run.mk st0 [] []).st = st0 from rfl, h0] at hp
      simp [sEvsL] at hp
      rcases hp with rfl | rfl | rfl | rfl <;> rfl
    · unfold runPipeline
      rw [heq]
      intro p hp
      simp only [updateProgress, Run.updateStatus, Run.addLog] at hp
      simp only [sEvsL_append] at hp
      rcases hcase with ⟨hs1, he1⟩ | ⟨hs1, he1⟩ <;>
        · rw [he1, hs1] at hp
          simp only [show (Run.mk st0 [] []).evs = [] from rfl,
            show (Run.mk st0 [] []).st = st0 from rfl, h0] at hp
          simp [sEvsL, statusOf] at hp
          rcases hp with rfl | rfl | rfl | rfl <;> rfl
  · intro w pid now2 hc hs hd
    obtain ⟨cache, snap, dirE, files, ch, evs⟩ := w
    obtain rfl : cache = none := hc
    obtain rfl : snap = none := hs
    obtain rfl : dirE = true := hd
    simp [get_project_state, recoverOrNone, sEvsL_append, sEvsL, statusOf,
      ProjectState.init]

/-- C1 amended witness: a pipeline run whose planning call times out
performs only the transitions PENDING→PLANNING and PLANNING→FAILED, both
allowed; the recovery world performs the PENDING→COMPLETED jump. -/
theorem c1_pipeline_forward_only_witness :
    (∀ p ∈ sEvsL (runPipeline
        ⟨.timeout, fun _ => .ok "", fun _ _ => .ok "",
          fun _ _ _ _ => .ok ⟨true, "", ""⟩, fun _ _ _ => .ok "",
          fun _ _ => .ok ⟨true, ""⟩, fun _ _ _ _ => .ok ""⟩ 0
        (ProjectState.init "p1" "n" "g" none 0)).1.evs,
      forwardAllowed p.1 p.2 = true) ∧
    (∀ (w : World) (pid : String) (now2 : Nat), w.cache = none → w.snap = none →
      w.dirExists = true →
      sEvsL (get_project_state w pid now2).2.evs
        = sEvsL w.evs ++ [(.pending, .completed)]) :=
  c1_pipeline_forward_only
    ⟨.timeout, fun _ => .ok "", fun _ _ => .ok "",
      fun _ _ _ _ => .ok ⟨true, "", ""⟩, fun _ _ _ => .ok "",
      fun _ _ => .ok ⟨true, ""⟩, fun _ _ _ _ => .ok ""⟩ 0
    (ProjectState.init "p1" "n" "g" none 0) rfl

/-- C7: a planning timeout is fatal: the run ends FAILED, the recorded
error is the timeout message (which carries the "timed out" indication),
and no file is written to disk.  The planner's fallback plan, by contrast,
is substituted exactly for a raised generation exception, an error-marked
result or a missing/empty file list — a well-formed plan keeps its own
files — so the fallback never covers the timeout path, which raises
instead. -/
theorem c7_planning_timeout_fatal (O : Oracles) (now : Nat)
    (st0 : ProjectState) (hplan : O.plan = .timeout) (herr : st0.errors = [])
    (d : PlanDict) (n g e : String) (fs : List FileSpec)
    (hkey : d.hasErrorKey = false) (hfiles : d.files = some fs)
    (hne : fs ≠ []) :
    (runPipeline O now st0).1.st.status = .failed ∧
    (runPipeline O now st0).2 = some "Planning stage timed out" ∧
    (runPipeline O now st0).1.st.errors = ["Planning stage timed out"] ∧
    (runPipeline O now st0).1.disk = [] ∧
    ((runPipeline O now st0).1.evs.filter (fun ev => isFileWrite ev)) = [] ∧
    create_plan (.error e) n g = fallback_plan n g (some e) ∧
    (create_plan (.ok d) n g).files = fs ∧
    create_plan (.ok ⟨false, none, some [], none, none, none⟩) n g
      = fallback_plan n g none := by
  have hfb : (create_plan (.ok d) n g).files = fs := by
    rcases fs with _ | ⟨a, fs'⟩
    · exact absurd rfl hne
    · simp [create_plan, hkey, hfiles]
  refine ⟨?_, ?_, ?_, ?_, ?_, rfl, hfb, rfl⟩ <;>
    simp [runPipeline, pipelineBody, afterPlanning, hplan, updateProgress,
      Run.updateStatus, Run.addLog, ProjectState.update_status,
      ProjectState.add_log, ProjectState.add_error, herr, isFileWrite]

/-- C7 witness: a concrete run with a timing-out planner ends FAILED with
the timeout error and an empty disk, and the planner model substitutes the
fallback exactly for bad results. -/
theorem c7_planning_timeout_fatal_witness :
    (runPipeline ⟨.timeout, fun _ => .ok "", fun _ _ => .ok "",
        fun _ _ _ _ => .ok ⟨true, "", ""⟩, fun _ _ _ => .ok "",
        fun _ _ => .ok ⟨true, ""⟩, fun _ _ _ _ => .ok ""⟩ 0
      (ProjectState.init "p1" "n" "g" none 0)).1.st.status = .failed ∧
    (runPipeline ⟨.timeout, fun _ => .ok "", fun _ _ => .ok "",
        fun _ _ _ _ => .ok ⟨true, "", ""⟩, fun _ _ _ => .ok "",
        fun _ _ => .ok ⟨true, ""⟩, fun _ _ _ _ => .ok ""⟩ 0
      (ProjectState.init "p1" "n" "g" none 0)).2
      = some "Planning stage timed out" ∧
    (runPipeline ⟨.timeout, fun _ => .ok "", fun _ _ => .ok "",
        fun _ _ _ _ => .ok ⟨true, "", ""⟩, fun _ _ _ => .ok "",
        fun _ _ => .ok ⟨true, ""⟩, fun _ _ _ _ => .ok ""⟩ 0
      (ProjectState.init "p1" "n" "g" none 0)).1.st.errors
      = ["Planning stage timed out"] ∧
    (runPipeline ⟨.timeout, fun _ => .ok "", fun _ _ => .ok "",
        fun _ _ _ _ => .ok ⟨true, "", ""⟩, fun _ _ _ => .ok "",
        fun _ _ => .ok ⟨true, ""⟩, fun _ _ _ _ => .ok ""⟩ 0
      (ProjectState.init "p1" "n" "g" none 0)).1.disk = [] ∧
    ((runPipeline ⟨.timeout, fun _ => .ok "", fun _ _ => .ok "",
        fun _ _ _ _ => .ok ⟨true, "", ""⟩, fun _ _ _ => .ok "",
        fun _ _ => .ok ⟨true, ""⟩, fun _ _ _ _ => .ok ""⟩ 0
      (ProjectState.init "p1" "n" "g" none 0)).1.evs.filter
        (fun ev => isFileWrite ev)) = [] ∧
    create_plan (.error "boom") "n" "g" = fallback_plan "n" "g" (some "boom") ∧
    (create_plan (.ok ⟨false, none,
        some [⟨"main.py", "d", "python"⟩], none, none, none⟩) "n" "g").files
      = [⟨"main.py", "d", "python"⟩] ∧
    create_plan (.ok ⟨false, none, some [], none, none, none⟩) "n" "g"
      = fallback_plan "n" "g" none :=
  c7_planning_timeout_fatal
    ⟨.timeout, fun _ => .ok "", fun _ _ => .ok "",
      fun _ _ _ _ => .ok ⟨true, "", ""⟩, fun _ _ _ => .ok "",
      fun _ _ => .ok ⟨true, ""⟩, fun _ _ _ _ => .ok ""⟩ 0
    (ProjectState.init "p1" "n" "g" none 0) rfl rfl
    ⟨false, none, some [⟨"main.py", "d", "python"⟩], none, none, none⟩
    "n" "g" "boom" [⟨"main.py", "d", "python"⟩] rfl rfl (by decide)

/-- C6: testing a file whose verifier always fails with a fix collaborator
that never times out performs exactly 2 fix attempts (each one: invoke the
fixer, persist the fixed code, re-run the verifier), then logs the file as
unresolved ("Could not fix all issues") and returns normally, so the
testing loop continues with the next file instead of aborting; with a fix
collaborator that times out, the loop stops after the single (timed-out)
fix attempt — the remaining attempt is not consumed and nothing more is
persisted — and the file is likewise logged as unresolved. -/
theorem c6_fix_loop_two_attempts (O Ot : Oracles) (plan : Plan) (now : Nat)
    (fp : String) (r : Run)
    (hmark : (lookupLang plan fp == "markdown") = false)
    (hpre : sStartsWith fp "test_" = false)
    (hct : ∀ a b c, O.create_tests a b c = .ok "TESTS")
    (hrun : ∀ a b, O.run_test a b = .ok ⟨false, "BOOM"⟩)
    (hfix : ∀ a b c d, O.fix_code a b c d = .ok "FIXED")
    (hct2 : ∀ a b c, Ot.create_tests a b c = .ok "TESTS")
    (hrun2 : ∀ a b, Ot.run_test a b = .ok ⟨false, "BOOM"⟩)
    (hfix2 : ∀ a b c d, Ot.fix_code a b c d = .timeout) :
    (∃ r', testingOneFile O plan now fp r = .ok r' ∧
      fixCalls r'.evs = fixCalls r.evs + 2 ∧
      actionEvs r'.evs = actionEvs r.evs ++
        [.createTestsCall fp,
          .fileWrite (testFileNameFor (lookupLang plan fp) fp),
          .runTestCall (testFileNameFor (lookupLang plan fp) fp),
          .fixCall fp, .fileWrite fp,
          .runTestCall (testFileNameFor (lookupLang plan fp) fp),
          .fixCall fp, .fileWrite fp,
          .runTestCall (testFileNameFor (lookupLang plan fp) fp)] ∧
      r'.st.logs.getLast? =
        some ⟨"progress", "Could not fix all issues in " ++ fp, [], now⟩) ∧
    (∃ r2, testingOneFile Ot plan now fp r = .ok r2 ∧
      fixCalls r2.evs = fixCalls r.evs + 1 ∧
      actionEvs r2.evs = actionEvs r.evs ++
        [.createTestsCall fp,
          .fileWrite (testFileNameFor (lookupLang plan fp) fp),
          .runTestCall (testFileNameFor (lookupLang plan fp) fp),
          .fixCall fp] ∧
      r2.st.logs.getLast? =
        some ⟨"progress", "Could not fix all issues in " ++ fp, [], now⟩) := by
  constructor
  · simp only [testingOneFile, hmark, hpre, Bool.or_self, Bool.false_or,
      if_false, hct, fixLoopGo, hrun, hfix, updateProgress, Run.diskWrite,
      Run.emit, Run.addLog]
    refine ⟨_, rfl, ?_, ?_, ?_⟩
    · simp [fixCalls, isFixCall, List.countP_append]
    · simp [actionEvs, isAction, List.filter_append]
    · simp [ProjectState.add_log, List.getLast?_append_cons]
  · simp only [testingOneFile, hmark, hpre, Bool.or_self, Bool.false_or,
      if_false, hct2, fixLoopGo, hrun2, hfix2, updateProgress, Run.diskWrite,
      Run.emit, Run.addLog]
    refine ⟨_, rfl, ?_, ?_, ?_⟩
    · simp [fixCalls, isFixCall, List.countP_append]
    · simp [actionEvs, isAction, List.filter_append]
    · simp [ProjectState.add_log, List.getLast?_append_cons]

/-- C6 witness: with the concrete always-failing verifier, exactly two fix
attempts run on `main.py`, then the file is logged unresolved and the step
returns normally; with the timing-out fixer, exactly one attempt runs. -/
theorem c6_fix_loop_two_attempts_witness :
    (∃ r', testingOneFile failVerifierOracles onePyPlan 0 "main.py" onePyRun
        = .ok r' ∧
      fixCalls r'.evs = fixCalls onePyRun.evs + 2 ∧
      actionEvs r'.evs = actionEvs onePyRun.evs ++
        [.createTestsCall "main.py",
          .fileWrite (testFileNameFor (lookupLang onePyPlan "main.py") "main.py"),
          .runTestCall (testFileNameFor (lookupLang onePyPlan "main.py") "main.py"),
          .fixCall "main.py", .fileWrite "main.py",
          .runTestCall (testFileNameFor (lookupLang onePyPlan "main.py") "main.py"),
          .fixCall "main.py", .fileWrite "main.py",
          .runTestCall (testFileNameFor (lookupLang onePyPlan "main.py") "main.py")] ∧
      r'.st.logs.getLast? =
        some ⟨"progress", "Could not fix all issues in " ++ "main.py", [], 0⟩) ∧
    (∃ r2, testingOneFile timeoutFixerOracles onePyPlan 0 "main.py" onePyRun
        = .ok r2 ∧
      fixCalls r2.evs = fixCalls onePyRun.evs + 1 ∧
      actionEvs r2.evs = actionEvs onePyRun.evs ++
        [.createTestsCall "main.py",
          .fileWrite (testFileNameFor (lookupLang onePyPlan "main.py") "main.py"),
          .runTestCall (testFileNameFor (lookupLang onePyPlan "main.py") "main.py"),
          .fixCall "main.py"] ∧
      r2.st.logs.getLast? =
        some ⟨"progress", "Could not fix all issues in " ++ "main.py", [], 0⟩) :=
  c6_fix_loop_two_attempts failVerifierOracles timeoutFixerOracles onePyPlan 0
    "main.py" onePyRun (by decide) (by decide)
    (fun _ _ _ => rfl) (fun _ _ => rfl) (fun _ _ _ _ => rfl)
    (fun _ _ _ => rfl) (fun _ _ => rfl) (fun _ _ _ _ => rfl)

end ACP
